import Mathlib

/-!
Verification development for the CarbonSecureAI dashboard (src/main2.py).

The program keeps a per-session table of formation records, derives a
storage-capacity value from reservoir parameters, snapshots the current
input-panel values into new records, scores each record with an external
classifier, and colour-bands the scores for a map view.  Numeric widget
values are modelled as rationals; a session-state key that may be absent
is modelled as an Option, and reading it with a Python-style
get(key, default) is modelled by Option.getD.  The external classifier
(best_pipeline.pkl) is opaque in the source, so scoring is parameterised
over an arbitrary batch classifier that either returns the positive-class
probabilities or fails with an exception message.
-/

namespace CarbonSecureAI

/-- One row of the formations table (columns fixed at lines 178-185 of
src/main2.py).  Security is the derived score column, absent (none) until
a scoring activation attaches it. -/
structure FormationRecord where
  name : String
  depth : ℚ
  pressure : ℚ
  temperature : ℚ
  co2_density : ℚ
  storage_capacity : ℚ
  fault : ℚ
  seal_thickness : ℚ
  reservoir_thickness : ℚ
  stacked : ℚ
  longitude : ℚ
  latitude : ℚ
  security : Option ℚ
  deriving Repr, DecidableEq

/-- The Streamlit session-state keys the modelled code reads.  Each field
mirrors one widget key of src/main2.py; none models a key that is not in
session state, and the segmented controls (faulted, stacked) hold an
optional string that is "Yes" or "No" once the user picks a value. -/
structure SessionState where
  reservoir_name : Option String
  longitude : Option ℚ
  latitude : Option ℚ
  storage_capacity : Option ℚ
  area : Option ℚ
  thickness : Option ℚ
  porosity : Option ℚ
  co2_density : Option ℚ
  eff_factor : Option ℚ
  pressure : Option ℚ
  temperature : Option ℚ
  depth : Option ℚ
  co2_density_t3 : Option ℚ
  thickness_t3 : Option ℚ
  seal_thickness : Option ℚ
  faulted : Option String
  stacked : Option String
  deriving Repr, DecidableEq

/-- Embedding of the calculate_capacity callback (src/main2.py lines
95-106): reads the tab-2 widget values, multiplies area, thickness,
porosity/100, CO2 density and eff_factor/100, divides by 1e6 and stores
the result into the storage_capacity key.  In the running app every
number_input key exists and is initialised to 0.0, so the direct
attribute reads of the callback are modelled with getD 0, whose default
coincides with the widget default. -/
def calculate_capacity (s : SessionState) : SessionState :=
  let porosity_val := s.porosity.getD 0 / 100
  let eff_factor_val := s.eff_factor.getD 0 / 100
  let storage_capacity_calc :=
    s.area.getD 0 * s.thickness.getD 0 * porosity_val
      * s.co2_density.getD 0 * eff_factor_val
  { s with storage_capacity := some (storage_capacity_calc / 1000000) }

/-- Embedding of the record built by add_current_formation (src/main2.py
lines 188-205): each field reads its session key with
get(key, 0.0) (empty string for the name), the CO2 density and reservoir
thickness prefer the tab-3 key and fall back to the tab-2 key, and the
segmented controls encode to 1 exactly when the held value is "Yes".
The new row has no Security value. -/
def add_current_formation_entry (s : SessionState) : FormationRecord :=
  { name := s.reservoir_name.getD ""
  , depth := s.depth.getD 0
  , pressure := s.pressure.getD 0
  , temperature := s.temperature.getD 0
  , co2_density := s.co2_density_t3.getD (s.co2_density.getD 0)
  , storage_capacity := s.storage_capacity.getD 0
  , fault := if s.faulted = some "Yes" then 1 else 0
  , seal_thickness := s.seal_thickness.getD 0
  , reservoir_thickness := s.thickness_t3.getD (s.thickness.getD 0)
  , stacked := if s.stacked = some "Yes" then 1 else 0
  , longitude := s.longitude.getD 0
  , latitude := s.latitude.getD 0
  , security := none }

/-- The ordered formations store of the session (pd.DataFrame rows, in
row order). -/
abbrev Store := List FormationRecord

/-- The store as initialised at session start (src/main2.py lines
177-185): empty. -/
def emptyFormations : Store := []

/-- Embedding of the pd.concat append performed by add_current_formation
(src/main2.py lines 207-210): the snapshot row is added at the end. -/
def add_current_formation (store : Store) (s : SessionState) : Store :=
  store ++ [add_current_formation_entry s]

/-- The ordered feature row the Security Assessment tab extracts for one
record (src/main2.py lines 231-237): Depth, Pressure, Temperature, CO2
Density, Storage Capacity, Fault, Seal Thickness, Reservoir Thickness,
Stacked. -/
def featureVector (r : FormationRecord) : List ℚ :=
  [r.depth, r.pressure, r.temperature, r.co2_density, r.storage_capacity,
   r.fault, r.seal_thickness, r.reservoir_thickness, r.stacked]

/-- Round a rational to the nearest integer, ties to even, as
numpy.round does on the probability column. -/
def roundHalfEven (q : ℚ) : ℤ :=
  let f := ⌊q⌋
  let frac := q - f
  if frac < 1 / 2 then f
  else if 1 / 2 < frac then f + 1
  else if f % 2 = 0 then f else f + 1

/-- Rounding to 2 decimals, as in predict_proba(...)[:, 1].round(2)
(src/main2.py line 239). -/
def round2 (q : ℚ) : ℚ := (roundHalfEven (q * 100) : ℚ) / 100

/-- The opaque trained pipeline: a batch classifier taking the list of
feature rows and returning the positive-class probability of each row,
or failing with an exception message. -/
abbrev Classifier := List (List ℚ) → Except String (List ℚ)

/-- The per-record update performed by the Security column assignment:
the rounded probability becomes the Security value, all other fields are
kept. -/
def updSecurity (r : FormationRecord) (p : ℚ) : FormationRecord :=
  { r with security := some (round2 p) }

/-- Attach the rounded probabilities to the records pairwise (the
DataFrame column assignment at src/main2.py line 240). -/
def attachScores (store : Store) (probs : List ℚ) : Store :=
  (store.zip probs).map (fun rp => updSecurity rp.1 rp.2)

/-- Embedding of the Security Assessment scoring block (src/main2.py
lines 227-242): when the store is non-empty, the feature rows are
extracted and passed to the classifier inside a try block; on success
the rounded probabilities are written into the Security column, on any
exception an error message is shown and the store is left untouched.
The second component is the user-visible error message, none when no
error was shown.  A probability list whose length does not match the
store would make the pandas assignment raise inside the same try block,
so it too leaves the store untouched. -/
def scoreActivation (clf : Classifier) (store : Store) : Store × Option String :=
  if store.isEmpty then (store, none)
  else
    match clf (store.map featureVector) with
    | Except.error e => (store, some ("Prediction failed: " ++ e))
    | Except.ok probs =>
        if probs.length = store.length then (attachScores store probs, none)
        else (store, some "Prediction failed: length mismatch")

/-- Embedding of security_to_color (src/main2.py lines 284-290): green
[0, 200, 0] is the secure band, orange [255, 165, 0] the moderate band,
red [200, 0, 0] the insecure band. -/
def security_to_color (sec : ℚ) : List ℕ :=
  if sec ≥ 9 / 10 then [0, 200, 0]
  else if sec ≥ 1 / 2 then [255, 165, 0]
  else [200, 0, 0]

/-- Embedding of the selected-row lookup of the Security Assessment tab
(src/main2.py lines 253-255): the rows whose Name equals the selection
are filtered and iloc 0 takes the first of them, so the lookup is a
first-match search in row order. -/
def select_row (store : Store) (n : String) : Option FormationRecord :=
  store.find? (fun r => r.name == n)

/-- The three metrics displayed for the selected row (src/main2.py lines
257-263): Security, Storage Capacity (Mt), Seal Thickness (m). -/
def selected_metrics (store : Store) (n : String) :
    Option (Option ℚ × ℚ × ℚ) :=
  (select_row store n).map (fun r => (r.security, r.storage_capacity, r.seal_thickness))

/-! Theorems settling the claims. -/

/-- C1: the explicit calculate action stores
area * thickness * (porosity/100) * co2_density * (eff/100) / 1e6 as the
storage capacity, overwriting any previously entered direct value (the
prior value is unconstrained), and a zero factor yields capacity 0
rather than an error. -/
theorem calculate_capacity_formula (s : SessionState) (a t p c e prior : ℚ)
    (ha : 0 ≤ a) (ht : 0 ≤ t) (hp : 0 ≤ p) (hc : 0 ≤ c) (he : 0 ≤ e)
    (hA : s.area = some a) (hT : s.thickness = some t)
    (hP : s.porosity = some p) (hC : s.co2_density = some c)
    (hE : s.eff_factor = some e) (hprior : s.storage_capacity = some prior) :
    (calculate_capacity s).storage_capacity
        = some (a * t * (p / 100) * c * (e / 100) / 1000000) ∧
    (a = 0 ∨ t = 0 ∨ p = 0 ∨ c = 0 ∨ e = 0 →
      (calculate_capacity s).storage_capacity = some 0) := by
  constructor
  · simp [calculate_capacity, hA, hT, hP, hC, hE]
  · intro hz
    rcases hz with hz | hz | hz | hz | hz <;>
      simp [calculate_capacity, hA, hT, hP, hC, hE, hz]

/-- Session state with the worked example of the spec on tab 2 and a
previously entered direct capacity of 999. -/
def sessEx : SessionState :=
  { reservoir_name := some "Demo", longitude := some 1, latitude := some 2
  , storage_capacity := some 999, area := some 1000000, thickness := some 50
  , porosity := some 20, co2_density := some 700, eff_factor := some 60
  , pressure := none, temperature := none, depth := none
  , co2_density_t3 := none, thickness_t3 := none, seal_thickness := none
  , faulted := none, stacked := none }

/-- Witness for C1: on area 1e6, thickness 50, porosity 20 percent, CO2
density 700, efficiency 60 percent, the calculate action overwrites the
entered 999 with exactly 4200 Mt. -/
theorem calculate_capacity_formula_witness :
    (calculate_capacity sessEx).storage_capacity = some 4200 := by
  have h := (calculate_capacity_formula sessEx 1000000 50 20 700 60 999
    (by norm_num) (by norm_num) (by norm_num) (by norm_num) (by norm_num)
    rfl rfl rfl rfl rfl rfl).1
  rw [h]
  norm_num

/-- C4: the banding of security_to_color is inclusive-low at both
boundaries: scores at least 9/10 are in the secure (green) band, scores
in [1/2, 9/10) in the moderate (orange) band, scores below 1/2 in the
insecure (red) band. -/
theorem security_to_color_bands (s : ℚ) :
    (9 / 10 ≤ s → security_to_color s = [0, 200, 0]) ∧
    (1 / 2 ≤ s → s < 9 / 10 → security_to_color s = [255, 165, 0]) ∧
    (s < 1 / 2 → security_to_color s = [200, 0, 0]) := by
  refine ⟨fun h => ?_, fun h1 h2 => ?_, fun h => ?_⟩
  · simp [security_to_color, h]
  · rw [security_to_color, if_neg (by exact not_le.mpr h2), if_pos h1]
  · rw [security_to_color, if_neg (by exact not_le.mpr (lt_trans h (by norm_num))),
      if_neg (by exact not_le.mpr h)]

/-- Witness for C4 at the boundary examples of the spec: 0.95 is secure,
exactly 0.5 is moderate, 0.49 is insecure. -/
theorem security_to_color_bands_witness :
    security_to_color (95 / 100) = [0, 200, 0] ∧
    security_to_color (1 / 2) = [255, 165, 0] ∧
    security_to_color (49 / 100) = [200, 0, 0] :=
  ⟨(security_to_color_bands (95 / 100)).1 (by norm_num),
   (security_to_color_bands (1 / 2)).2.1 (by norm_num) (by norm_num),
   (security_to_color_bands (49 / 100)).2.2 (by norm_num)⟩

/-- C5: the snapshot resolves the two cross-tab duplicated inputs by
preferring the tab-3 key when present and otherwise falling back to the
tab-2 key, for both CO2 density and reservoir thickness. -/
theorem add_current_formation_entry_cross_tab (s : SessionState) (v w : ℚ) :
    (s.co2_density_t3 = some v → (add_current_formation_entry s).co2_density = v) ∧
    (s.co2_density_t3 = none → s.co2_density = some w →
      (add_current_formation_entry s).co2_density = w) ∧
    (s.thickness_t3 = some v →
      (add_current_formation_entry s).reservoir_thickness = v) ∧
    (s.thickness_t3 = none → s.thickness = some w →
      (add_current_formation_entry s).reservoir_thickness = w) := by
  refine ⟨fun h => ?_, fun h3 h2 => ?_, fun h => ?_, fun h3 h2 => ?_⟩ <;>
    simp [add_current_formation_entry, *]

/-- Session state holding tab-3 overrides together with tab-2 values. -/
def sessT3 : SessionState :=
  { sessEx with co2_density_t3 := some 650, thickness_t3 := some 40 }

/-- Witness for C5: with tab-2 CO2 density 700 and thickness 50, a tab-3
CO2 density 650 and thickness 40 win when present, and the tab-2 values
are used when the tab-3 keys are absent. -/
theorem add_current_formation_entry_cross_tab_witness :
    (add_current_formation_entry sessT3).co2_density = 650 ∧
    (add_current_formation_entry sessT3).reservoir_thickness = 40 ∧
    (add_current_formation_entry sessEx).co2_density = 700 ∧
    (add_current_formation_entry sessEx).reservoir_thickness = 50 :=
  ⟨(add_current_formation_entry_cross_tab sessT3 650 700).1 rfl,
   (add_current_formation_entry_cross_tab sessT3 40 50).2.2.1 rfl,
   (add_current_formation_entry_cross_tab sessEx 650 700).2.1 rfl rfl,
   (add_current_formation_entry_cross_tab sessEx 40 50).2.2.2 rfl rfl⟩

/-- C6: in the snapshot every missing numeric key defaults silently to
0, a missing name defaults to the empty string, and the boolean flags
encode "Yes" to 1 and "No" or an unset value to 0. -/
theorem add_current_formation_entry_defaults (s : SessionState) :
    (s.depth = none → (add_current_formation_entry s).depth = 0) ∧
    (s.pressure = none → (add_current_formation_entry s).pressure = 0) ∧
    (s.temperature = none → (add_current_formation_entry s).temperature = 0) ∧
    (s.storage_capacity = none →
      (add_current_formation_entry s).storage_capacity = 0) ∧
    (s.seal_thickness = none →
      (add_current_formation_entry s).seal_thickness = 0) ∧
    (s.longitude = none → (add_current_formation_entry s).longitude = 0) ∧
    (s.latitude = none → (add_current_formation_entry s).latitude = 0) ∧
    (s.co2_density_t3 = none → s.co2_density = none →
      (add_current_formation_entry s).co2_density = 0) ∧
    (s.thickness_t3 = none → s.thickness = none →
      (add_current_formation_entry s).reservoir_thickness = 0) ∧
    (s.reservoir_name = none → (add_current_formation_entry s).name = "") ∧
    (s.faulted = some "Yes" → (add_current_formation_entry s).fault = 1) ∧
    (s.faulted = some "No" → (add_current_formation_entry s).fault = 0) ∧
    (s.faulted = none → (add_current_formation_entry s).fault = 0) ∧
    (s.stacked = some "Yes" → (add_current_formation_entry s).stacked = 1) ∧
    (s.stacked = some "No" → (add_current_formation_entry s).stacked = 0) ∧
    (s.stacked = none → (add_current_formation_entry s).stacked = 0) := by
  refine ⟨?_, ?_, ?_, ?_, ?_, ?_, ?_, ?_, ?_, ?_, ?_, ?_, ?_, ?_, ?_, ?_⟩ <;>
    intro h <;> try intro h2
  all_goals simp [add_current_formation_entry, *]

/-- Session state with every key absent. -/
def sessNone : SessionState :=
  { reservoir_name := none, longitude := none, latitude := none
  , storage_capacity := none, area := none, thickness := none
  , porosity := none, co2_density := none, eff_factor := none
  , pressure := none, temperature := none, depth := none
  , co2_density_t3 := none, thickness_t3 := none, seal_thickness := none
  , faulted := none, stacked := none }

/-- Session state with both segmented controls set to "Yes". -/
def sessYes : SessionState := { sessNone with faulted := some "Yes", stacked := some "Yes" }

/-- Session state with both segmented controls set to "No". -/
def sessNo : SessionState := { sessNone with faulted := some "No", stacked := some "No" }

/-- Witness for C6: the fully absent session snapshots to all-zero
numerics, empty name and zero flags, and explicit "Yes"/"No" choices
encode to 1/0. -/
theorem add_current_formation_entry_defaults_witness :
    (add_current_formation_entry sessNone).depth = 0 ∧
    (add_current_formation_entry sessNone).pressure = 0 ∧
    (add_current_formation_entry sessNone).temperature = 0 ∧
    (add_current_formation_entry sessNone).storage_capacity = 0 ∧
    (add_current_formation_entry sessNone).seal_thickness = 0 ∧
    (add_current_formation_entry sessNone).longitude = 0 ∧
    (add_current_formation_entry sessNone).latitude = 0 ∧
    (add_current_formation_entry sessNone).co2_density = 0 ∧
    (add_current_formation_entry sessNone).reservoir_thickness = 0 ∧
    (add_current_formation_entry sessNone).name = "" ∧
    (add_current_formation_entry sessNone).fault = 0 ∧
    (add_current_formation_entry sessNone).stacked = 0 ∧
    (add_current_formation_entry sessYes).fault = 1 ∧
    (add_current_formation_entry sessYes).stacked = 1 ∧
    (add_current_formation_entry sessNo).fault = 0 ∧
    (add_current_formation_entry sessNo).stacked = 0 :=
  ⟨(add_current_formation_entry_defaults sessNone).1 rfl,
   (add_current_formation_entry_defaults sessNone).2.1 rfl,
   (add_current_formation_entry_defaults sessNone).2.2.1 rfl,
   (add_current_formation_entry_defaults sessNone).2.2.2.1 rfl,
   (add_current_formation_entry_defaults sessNone).2.2.2.2.1 rfl,
   (add_current_formation_entry_defaults sessNone).2.2.2.2.2.1 rfl,
   (add_current_formation_entry_defaults sessNone).2.2.2.2.2.2.1 rfl,
   (add_current_formation_entry_defaults sessNone).2.2.2.2.2.2.2.1 rfl rfl,
   (add_current_formation_entry_defaults sessNone).2.2.2.2.2.2.2.2.1 rfl rfl,
   (add_current_formation_entry_defaults sessNone).2.2.2.2.2.2.2.2.2.1 rfl,
   (add_current_formation_entry_defaults sessNone).2.2.2.2.2.2.2.2.2.2.2.2.1 rfl,
   (add_current_formation_entry_defaults sessNone).2.2.2.2.2.2.2.2.2.2.2.2.2.2.2 rfl,
   (add_current_formation_entry_defaults sessYes).2.2.2.2.2.2.2.2.2.2.1 rfl,
   (add_current_formation_entry_defaults sessYes).2.2.2.2.2.2.2.2.2.2.2.2.2.1 rfl,
   (add_current_formation_entry_defaults sessNo).2.2.2.2.2.2.2.2.2.2.2.1 rfl,
   (add_current_formation_entry_defaults sessNo).2.2.2.2.2.2.2.2.2.2.2.2.2.2.1 rfl⟩

/-- C7: on the initially empty store, add, snapshot, add yields a store
of length 2 holding the two snapshots in insertion order; in general one
add appends exactly one record at the end, leaves every existing row in
place, and performs no duplicate-name check (the session states are
arbitrary, so the names may coincide with each other or with names
already in the store). -/
theorem add_current_formation_append (s1 s2 : SessionState) (store : Store) :
    (add_current_formation (add_current_formation emptyFormations s1) s2).length = 2 ∧
    (add_current_formation (add_current_formation emptyFormations s1) s2)[0]?
      = some (add_current_formation_entry s1) ∧
    (add_current_formation (add_current_formation emptyFormations s1) s2)[1]?
      = some (add_current_formation_entry s2) ∧
    (add_current_formation store s1).length = store.length + 1 ∧
    (add_current_formation store s1)[store.length]?
      = some (add_current_formation_entry s1) ∧
    (∀ i, i < store.length → (add_current_formation store s1)[i]? = store[i]?) := by
  refine ⟨rfl, rfl, rfl, by simp [add_current_formation], ?_, ?_⟩
  · simp [add_current_formation]
  · intro i hi
    simp [add_current_formation, List.getElem?_append_left hi]

/-- Witness for C7: two adds of the worked-example session on the empty
store give a two-row store with the rows in insertion order, and even
though both rows carry the same name the second add still appends. -/
theorem add_current_formation_append_witness :
    (add_current_formation (add_current_formation emptyFormations sessEx) sessEx).length = 2 ∧
    (add_current_formation (add_current_formation emptyFormations sessEx) sessEx)[0]?
      = some (add_current_formation_entry sessEx) ∧
    (add_current_formation (add_current_formation emptyFormations sessEx) sessEx)[1]?
      = some (add_current_formation_entry sessEx) ∧
    (add_current_formation emptyFormations sessEx)[0]?
      = some (add_current_formation_entry sessEx) :=
  ⟨(add_current_formation_append sessEx sessEx emptyFormations).1,
   (add_current_formation_append sessEx sessEx emptyFormations).2.1,
   (add_current_formation_append sessEx sessEx emptyFormations).2.2.1,
   (add_current_formation_append sessEx sessEx emptyFormations).2.2.2.2.1⟩

/-- A first-match characterisation of List.find?: if the element at
index i satisfies the predicate and no earlier element does, find?
returns exactly that element. -/
theorem find?_first {α : Type} (p : α → Bool) (l : List α) (i : ℕ) (a : α)
    (ha : l[i]? = some a) (hpa : p a = true)
    (hfirst : ∀ j, j < i → ∀ b, l[j]? = some b → p b = false) :
    l.find? p = some a := by
  induction l generalizing i with
  | nil => simp at ha
  | cons x xs ih =>
    cases i with
    | zero =>
      simp only [List.getElem?_cons_zero, Option.some.injEq] at ha
      subst ha
      simp [List.find?, hpa]
    | succ n =>
      have hx : p x = false := hfirst 0 (Nat.succ_pos n) x (by simp)
      simp only [List.getElem?_cons_succ] at ha
      simp only [List.find?, hx]
      exact ih n ha fun j hj b hb =>
        hfirst (j + 1) (Nat.succ_lt_succ hj) b (by simpa using hb)

/-- C8: when a name occurs in two or more records, selecting it returns
the metrics of the first matching row in store order: if row i carries
the selected name and no earlier row does, the selection resolves to row
i and the displayed metrics are its Security, Storage Capacity and Seal
Thickness. -/
theorem select_row_first_match (store : Store) (n : String) (i : ℕ)
    (r : FormationRecord) (hr : store[i]? = some r) (hname : r.name = n)
    (hfirst : ∀ j, j < i → ∀ q, store[j]? = some q → q.name ≠ n)
    (hdup : 2 ≤ (store.filter (fun q => q.name == n)).length) :
    select_row store n = some r ∧
    selected_metrics store n = some (r.security, r.storage_capacity, r.seal_thickness) := by
  have hfind : store.find? (fun q => q.name == n) = some r := by
    refine find?_first _ store i r hr (by simp [hname]) ?_
    intro j hj b hb
    simpa using hfirst j hj b hb
  refine ⟨hfind, ?_⟩
  simp [selected_metrics, select_row, hfind]

/-- A concrete record named "A" with security attached. -/
def recA : FormationRecord :=
  { name := "A", depth := 1000, pressure := 10, temperature := 40
  , co2_density := 700, storage_capacity := 42, fault := 0
  , seal_thickness := 50, reservoir_thickness := 30, stacked := 1
  , longitude := 1, latitude := 2, security := some (85 / 100) }

/-- A second record that reuses the name "A" with different metrics. -/
def recA2 : FormationRecord :=
  { recA with storage_capacity := 7, seal_thickness := 9, security := some (10 / 100) }

/-- A record named "B". -/
def recB : FormationRecord :=
  { recA with name := "B", storage_capacity := 13 }

/-- Witness for C8: in the store [B, A, A2] the name "A" occurs twice and
selecting it returns the metrics of the first "A" row. -/
theorem select_row_first_match_witness :
    select_row [recB, recA, recA2] "A" = some recA ∧
    selected_metrics [recB, recA, recA2] "A"
      = some (some (85 / 100), 42, 50) :=
  select_row_first_match [recB, recA, recA2] "A" 1 recA rfl rfl
    (by
      intro j hj q hq
      interval_cases j
      · simp only [List.getElem?_cons_zero, Option.some.injEq] at hq
        subst hq
        simp [recB, recA])
    (by simp [recA, recA2, recB])

/-- Attaching distributes over cons. -/
theorem attachScores_cons (r : FormationRecord) (rs : Store) (p : ℚ) (ps : List ℚ) :
    attachScores (r :: rs) (p :: ps) = updSecurity r p :: attachScores rs ps := rfl

/-- Attaching a full-length probability list preserves the row count. -/
theorem attachScores_length (store : Store) (probs : List ℚ)
    (h : probs.length = store.length) :
    (attachScores store probs).length = store.length := by
  simp [attachScores, List.length_zip, h]

/-- The Security update leaves the feature row of a record unchanged,
so attaching scores does not change the extracted feature rows. -/
theorem attachScores_map_featureVector (store : Store) :
    ∀ probs : List ℚ, probs.length = store.length →
      (attachScores store probs).map featureVector = store.map featureVector := by
  induction store with
  | nil => intro probs h; simp [attachScores]
  | cons r rs ih =>
    intro probs h
    cases probs with
    | nil => simp at h
    | cons p ps =>
      rw [attachScores_cons, List.map_cons, List.map_cons, ih ps (by simpa using h)]
      rfl

/-- The Security update is absorbing: attaching the same probabilities a
second time changes nothing. -/
theorem attachScores_attachScores (store : Store) :
    ∀ probs : List ℚ, probs.length = store.length →
      attachScores (attachScores store probs) probs = attachScores store probs := by
  induction store with
  | nil => intro probs h; simp [attachScores]
  | cons r rs ih =>
    intro probs h
    cases probs with
    | nil => simp at h
    | cons p ps =>
      rw [attachScores_cons, attachScores_cons, ih ps (by simpa using h)]
      rfl

/-- Pointwise description of attaching: row i of the scored store is row
i of the store with its Security set to the rounded probability i. -/
theorem attachScores_getElem? (store : Store) :
    ∀ (probs : List ℚ) (i : ℕ) (r : FormationRecord) (p : ℚ),
      store[i]? = some r → probs[i]? = some p →
      (attachScores store probs)[i]? = some (updSecurity r p) := by
  induction store with
  | nil => intro probs i r p hr; simp at hr
  | cons x xs ih =>
    intro probs i r p hr hp
    cases probs with
    | nil => simp at hp
    | cons q qs =>
      cases i with
      | zero =>
        simp only [List.getElem?_cons_zero, Option.some.injEq] at hr hp
        subst hr; subst hp
        simp [attachScores_cons]
      | succ n =>
        simp only [List.getElem?_cons_succ] at hr hp
        rw [attachScores_cons, List.getElem?_cons_succ]
        exact ih qs n r p hr hp

/-- A record with its Security column cleared; two records agree under
clearSecurity exactly when all other fields agree. -/
def clearSecurity (r : FormationRecord) : FormationRecord := { r with security := none }

/-- Attaching scores changes nothing that clearSecurity keeps. -/
theorem attachScores_map_clearSecurity (store : Store) :
    ∀ probs : List ℚ, probs.length = store.length →
      (attachScores store probs).map clearSecurity = store.map clearSecurity := by
  induction store with
  | nil => intro probs h; simp [attachScores]
  | cons r rs ih =>
    intro probs h
    cases probs with
    | nil => simp at h
    | cons p ps =>
      rw [attachScores_cons, List.map_cons, List.map_cons, ih ps (by simpa using h)]
      rfl

/-- C2: on a successful activation the tab extracts, per record, exactly
the ordered 9-element feature row Depth, Pressure, Temperature, CO2
Density, Storage Capacity, Fault, Seal Thickness, Reservoir Thickness,
Stacked, feeds the whole batch to the classifier, and attaches to each
record the rounded positive-class probability returned for its row; no
error message is shown. -/
theorem scoreActivation_scores (clf : Classifier) (store : Store)
    (probs : List ℚ) (i : ℕ) (r : FormationRecord) (p : ℚ)
    (hclf : clf (store.map featureVector) = Except.ok probs)
    (hlen : probs.length = store.length)
    (hr : store[i]? = some r) (hp : probs[i]? = some p) :
    featureVector r = [r.depth, r.pressure, r.temperature, r.co2_density,
      r.storage_capacity, r.fault, r.seal_thickness, r.reservoir_thickness,
      r.stacked] ∧
    (scoreActivation clf store).1[i]? = some { r with security := some (round2 p) } ∧
    (scoreActivation clf store).2 = none := by
  have hne : store.isEmpty = false := by
    cases store with
    | nil => simp at hr
    | cons x xs => rfl
  have hres : scoreActivation clf store = (attachScores store probs, none) := by
    simp [scoreActivation, hne, hclf, hlen]
  refine ⟨rfl, ?_, by rw [hres]⟩
  rw [hres]
  exact attachScores_getElem? store probs i r p hr hp

/-- A stub batch classifier returning probability 83/100 for every row. -/
def constClf83 : Classifier := fun rows => Except.ok (rows.map fun _ => 83 / 100)

/-- A stub batch classifier that always raises. -/
def failClf : Classifier := fun _ => Except.error "model not fitted"

/-- Witness for C2: scoring the one-row store [recB] with the constant
classifier attaches Security 0.83 to the row and shows no error. -/
theorem scoreActivation_scores_witness :
    (scoreActivation constClf83 [recB]).1[0]?
      = some { recB with security := some (83 / 100) } ∧
    (scoreActivation constClf83 [recB]).2 = none := by
  have h := scoreActivation_scores constClf83 [recB] [83 / 100] 0 recB (83 / 100)
    rfl rfl rfl rfl
  refine ⟨?_, h.2.2⟩
  rw [h.2.1]
  norm_num [round2, roundHalfEven]

/-- C3: if the classifier raises, the activation surfaces the failure as
a user-visible message and leaves the store exactly as it was, so no
scores are attached and any previously attached scores survive; the
session does not crash because the embedded activation is a total
function. -/
theorem scoreActivation_error (clf : Classifier) (store : Store) (e : String)
    (hne : store.isEmpty = false)
    (hclf : clf (store.map featureVector) = Except.error e) :
    scoreActivation clf store = (store, some ("Prediction failed: " ++ e)) := by
  simp [scoreActivation, hne, hclf]

/-- Witness for C3: the always-raising classifier on the store [recA],
whose row already carries Security 0.85, reports the failure and leaves
the store, prior score included, untouched. -/
theorem scoreActivation_error_witness :
    scoreActivation failClf [recA]
      = ([recA], some ("Prediction failed: " ++ "model not fitted")) :=
  scoreActivation_error failClf [recA] "model not fitted" rfl rfl

/-- C9: scoring is idempotent on the store: for every store and (by
construction deterministic) classifier, running the activation twice
leaves the store exactly as running it once, whether the run succeeds or
fails. -/
theorem scoreActivation_idempotent (clf : Classifier) (store : Store) :
    (scoreActivation clf (scoreActivation clf store).1).1
      = (scoreActivation clf store).1 := by
  cases hemp : store.isEmpty with
  | true => simp [scoreActivation, hemp]
  | false =>
    cases hclf : clf (store.map featureVector) with
    | error e => simp [scoreActivation, hemp, hclf]
    | ok probs =>
      by_cases hlen : probs.length = store.length
      · have h1 : (scoreActivation clf store).1 = attachScores store probs := by
          simp [scoreActivation, hemp, hclf, hlen]
        have hfv := attachScores_map_featureVector store probs hlen
        have hlen2 := attachScores_length store probs hlen
        have hemp2 : (attachScores store probs).isEmpty = false := by
          rw [List.isEmpty_eq_false_iff_exists_mem] at hemp ⊢
          obtain ⟨x, hx⟩ := hemp
          have : 0 < (attachScores store probs).length := by
            rw [hlen2]
            exact List.length_pos.mpr (List.ne_nil_of_mem hx)
          exact ⟨_, List.getElem_mem this⟩
        rw [h1]
        simp only [scoreActivation, hemp2, hfv, hclf, hlen2, hlen, if_true,
          Bool.false_eq_true, if_false]
        rw [attachScores_attachScores store probs hlen]
      · simp [scoreActivation, hemp, hclf, hlen]

/-- C10: a successful activation modifies only the Security column: the
row count is preserved and clearing Security from every scored row gives
back exactly the original rows with Security cleared, so each row keeps
its Name, Depth, Pressure, Temperature, CO2 Density, Storage Capacity,
Fault, Seal Thickness, Reservoir Thickness, Stacked, Longitude and
Latitude, and the rows keep their order. -/
theorem scoreActivation_frame (clf : Classifier) (store : Store) (probs : List ℚ)
    (hne : store.isEmpty = false)
    (hclf : clf (store.map featureVector) = Except.ok probs)
    (hlen : probs.length = store.length) :
    (scoreActivation clf store).1.length = store.length ∧
    (scoreActivation clf store).1.map clearSecurity = store.map clearSecurity := by
  have hres : (scoreActivation clf store).1 = attachScores store probs := by
    simp [scoreActivation, hne, hclf, hlen]
  rw [hres]
  exact ⟨attachScores_length store probs hlen,
    attachScores_map_clearSecurity store probs hlen⟩

/-- Witness for C10: scoring the two-row store [recA, recB] keeps both
rows, in order, with every non-Security field unchanged. -/
theorem scoreActivation_frame_witness :
    (scoreActivation constClf83 [recA, recB]).1.length = 2 ∧
    (scoreActivation constClf83 [recA, recB]).1.map clearSecurity
      = [recA, recB].map clearSecurity :=
  scoreActivation_frame constClf83 [recA, recB] [83 / 100, 83 / 100] rfl rfl rfl

end CarbonSecureAI
